import Mathlib

/-!
Shallow embedding of the CV / job-description matcher
(`app/function/utilities.py`, `app/main.py`, `app/schema/schema.py`).

Modelling conventions:
* Python strings are Lean `String`s; `str.lower`, `str.strip`, the `in`
  substring test, `' '.join` and `str.endswith` are embedded below as
  executable functions on character lists.  Character-class operations
  (`lower`, `\d`, `\s`, `strip`) are modelled on their ASCII behaviour,
  which is the behaviour exercised by the repository.
* Python floats are modelled as exact rationals `ℚ`; Python `round`
  (round-half-to-even, the builtin used by the scorer both for the total
  and for the one-decimal sub-score fields) is `pyRoundInt` / `pyRound1`.
* `re.search(r"(\d+)[-\s]?(?:year|yr)", text)` is embedded as `findYears`:
  the leftmost maximal digit run followed by an optional `-`/whitespace
  separator and then `year` or `yr`.  Shrinking a maximal digit run can
  never help the regex engine (the following character would be a digit,
  which matches neither the separator class nor `y`), and every start
  position inside a digit run sees the same tail, so leftmost maximal
  munch is exactly `re.search`'s answer.
-/

namespace CVMatcher

/-- Python's default whitespace set (`str.strip`, regex `\s`), ASCII part:
space, tab, newline, carriage return, vertical tab, form feed. -/
def isPySpace (c : Char) : Bool :=
  c == ' ' || c == '\t' || c == '\n' || c == '\r' ||
  c == Char.ofNat 11 || c == Char.ofNat 12

/-- `str.lower()` (characterwise, as a list map so that it reduces). -/
def pyLower (s : String) : String := ⟨s.toList.map Char.toLower⟩

/-- `str.strip()`: drop leading and trailing whitespace. -/
def pyStrip (s : String) : String :=
  ⟨((s.toList.dropWhile isPySpace).reverse.dropWhile isPySpace).reverse⟩

/-- `leadsWith n h` holds when the character list `n` is an initial
segment of `h` (used for the substring and endswith tests). -/
def leadsWith : List Char → List Char → Bool
  | [], _ => true
  | _ :: _, [] => false
  | a :: as, b :: bs => a == b && leadsWith as bs

/-- `containsChars n h` holds when `n` occurs contiguously inside `h`. -/
def containsChars (n : List Char) : List Char → Bool
  | [] => leadsWith n []
  | b :: bs => leadsWith n (b :: bs) || containsChars n bs

/-- Python's substring test `needle in hay`. -/
def pyIn (needle hay : String) : Bool :=
  containsChars needle.toList hay.toList

/-- Python's `s.endswith(suffix)`. -/
def pyEndsWith (s suffix : String) : Bool :=
  leadsWith suffix.toList.reverse s.toList.reverse

/-- Python's `' '.join(xs)`. -/
def spaceJoin : List String → String
  | [] => ""
  | [x] => x
  | x :: y :: xs => x ++ " " ++ spaceJoin (y :: xs)

/-- Python's builtin `round(q)`: nearest integer, ties to even. -/
def pyRoundInt (q : ℚ) : ℤ :=
  if q - (q.floor : ℚ) < 1/2 then q.floor
  else if 1/2 < q - (q.floor : ℚ) then q.floor + 1
  else if q.floor % 2 = 0 then q.floor else q.floor + 1

/-- Python's `round(q, 1)`: round to one decimal place, ties to even. -/
def pyRound1 (q : ℚ) : ℚ :=
  (pyRoundInt (10 * q) : ℚ) / 10

/-- Value of a decimal digit run, as Python's `int()` reads it. -/
def digitsToNat (l : List Char) : ℕ :=
  l.foldl (fun n c => 10 * n + (c.toNat - 48)) 0

/-- After the digit run: the regex fragment `[-\s]?(?:year|yr)`. -/
def yearUnitAt (l : List Char) : Bool :=
  leadsWith "year".toList l || leadsWith "yr".toList l

/-- Optional single `-`/whitespace separator, then `year` or `yr`. -/
def sepThenUnit (l : List Char) : Bool :=
  yearUnitAt l ||
    (match l with
     | [] => false
     | c :: rest => (c == '-' || isPySpace c) && yearUnitAt rest)

/-- `re.search(r"(\d+)[-\s]?(?:year|yr)", text)`, returning the captured
digit group of the leftmost match (see the header note for why leftmost
maximal digit munch is faithful). -/
def findYears : List Char → Option ℕ
  | [] => none
  | c :: rest =>
    if c.isDigit && sepThenUnit (List.dropWhile Char.isDigit (c :: rest)) then
      some (digitsToNat (List.takeWhile Char.isDigit (c :: rest)))
    else findYears rest

/-! ## Data model (`app/schema/schema.py`) -/

/-- `CVData` pydantic model. -/
structure CVData where
  name : String
  skills : List String
  education : List String
  experience : List String
  deriving Repr, DecidableEq

/-- `JobData` pydantic model. -/
structure JobData where
  required_skills : List String
  qualifications : List String
  experience_needed : String
  deriving Repr, DecidableEq

/-- `ScoreDetails` pydantic model. -/
structure ScoreDetails where
  total_score : ℤ
  skill_score : ℚ
  education_score : ℚ
  experience_score : ℚ
  skill_matches : ℕ
  total_required_skills : ℕ
  education_match_found : Bool
  experience_match_found : Bool
  deriving Repr, DecidableEq

/-- `MatchResult` pydantic model; the `datetime` timestamp is modelled as
an abstract natural number. -/
structure MatchResult where
  cv_data : CVData
  job_data : JobData
  score_details : ScoreDetails
  timestamp : ℕ
  interpretation : String
  deriving Repr, DecidableEq

/-! ## The scorer (`calculate_match_score`), local variables as defs -/

/-- `[s.lower().strip() for s in l]`. -/
def normList (l : List String) : List String :=
  l.map fun s => pyStrip (pyLower s)

/-- `cv_skills`. -/
def cvSkillsN (cv : CVData) : List String := normList cv.skills

/-- `required_skills`. -/
def requiredSkillsN (job : JobData) : List String := normList job.required_skills

/-- `cv_education`. -/
def cvEducationN (cv : CVData) : List String := normList cv.education

/-- `job_qualifications`. -/
def jobQualificationsN (job : JobData) : List String := normList job.qualifications

/-- `skill_matches`: required skills matching some candidate skill by
bidirectional substring containment. -/
def skillMatchesVal (cv : CVData) (job : JobData) : ℕ :=
  ((requiredSkillsN job).filter fun req =>
    (cvSkillsN cv).any fun c => pyIn req c || pyIn c req).length

/-- `skill_score` before the one-decimal rounding of the record field. -/
def skillScoreVal (cv : CVData) (job : JobData) : ℚ :=
  if 0 < (requiredSkillsN job).length then
    ((skillMatchesVal cv job : ℚ) / ((requiredSkillsN job).length : ℚ)) * 70
  else 0

/-- `degree_keywords`. -/
def degree_keywords : List String :=
  ["bachelor", "master", "phd", "diploma", "degree", "bs", "ms",
   "computer science", "data science", "mathematics", "engineering",
   "statistics", "ai", "artificial intelligence", "machine learning"]

/-- `cv_edu_text = ' '.join(cv_education).lower()`. -/
def cvEduText (cv : CVData) : String := pyLower (spaceJoin (cvEducationN cv))

/-- `job_qual_text = ' '.join(job_qualifications).lower()`. -/
def jobQualText (job : JobData) : String := pyLower (spaceJoin (jobQualificationsN job))

/-- `has_relevant_education`. -/
def hasRelevantEducation (cv : CVData) : Bool :=
  degree_keywords.any fun k => pyIn k (cvEduText cv)

/-- `matches`: keywords present in both blobs. -/
def eduKeywordMatches (cv : CVData) (job : JobData) : ℕ :=
  (degree_keywords.filter fun k =>
    pyIn k (cvEduText cv) && pyIn k (jobQualText job)).length

/-- `edu_score` after the relevant-education step (15 base, 20 on a
specific keyword match), before the pursuing/completed step. -/
def eduScoreBase (cv : CVData) (job : JobData) : ℚ :=
  if hasRelevantEducation cv then
    (if 0 < eduKeywordMatches cv job then 20 else 15)
  else 0

/-- `edu_score` at the end of the education block: 0 when the job lists
no qualifications, otherwise the base raised to at least 18 when the
pursuing/completed status-match rule fires. -/
def eduScoreVal (cv : CVData) (job : JobData) : ℚ :=
  if 0 < (jobQualificationsN job).length then
    if (pyIn "pursuing" (jobQualText job) || pyIn "completed" (jobQualText job))
        && (pyIn "bachelor" (cvEduText cv) || pyIn "university" (cvEduText cv)) then
      max (eduScoreBase cv job) 18
    else eduScoreBase cv job
  else 0

/-- `cv_exp_text = ' '.join(cv_experience).lower()`. -/
def cvExpText (cv : CVData) : String := pyLower (spaceJoin cv.experience)

/-- `job_exp_text = job_data.experience_needed.lower()`. -/
def jobExpText (job : JobData) : String := pyLower job.experience_needed

/-- `has_relevant_exp = len(cv_exp_text.strip()) > 0`. -/
def hasRelevantExp (cv : CVData) : Bool :=
  0 < (pyStrip (cvExpText cv)).length

/-- `required_years`: parsed from the job text, defaulting to 0. -/
def requiredYears (job : JobData) : ℕ :=
  (findYears (jobExpText job).toList).getD 0

/-- `num_experiences = len(cv_experience)`. -/
def numExperiences (cv : CVData) : ℕ := cv.experience.length

/-- `experience_score` before the one-decimal rounding of the field. -/
def experienceScoreVal (cv : CVData) (job : JobData) : ℚ :=
  if 0 < numExperiences cv ∧ hasRelevantExp cv = true then
    if requiredYears job ≤ 1 then 10
    else min 10 (((numExperiences cv : ℚ) / (requiredYears job : ℚ)) * 10)
  else if 0 < numExperiences cv then 5
  else 0

/-- `calculate_match_score`: assembles the `ScoreDetails` record exactly
as the Python function does (total rounded from the raw sub-scores,
fields rounded to one decimal, `skill_matches` guarded by the
required-skill count, `education_match_found = edu_score > 0`). -/
def calculate_match_score (cv : CVData) (job : JobData) : ScoreDetails :=
  { total_score :=
      pyRoundInt (skillScoreVal cv job + eduScoreVal cv job + experienceScoreVal cv job)
    skill_score := pyRound1 (skillScoreVal cv job)
    education_score := pyRound1 (eduScoreVal cv job)
    experience_score := pyRound1 (experienceScoreVal cv job)
    skill_matches :=
      if 0 < (requiredSkillsN job).length then skillMatchesVal cv job else 0
    total_required_skills := (requiredSkillsN job).length
    education_match_found := decide (0 < eduScoreVal cv job)
    experience_match_found := hasRelevantExp cv }

/-- `get_interpretation`. -/
def get_interpretation (score : ℤ) : String :=
  if 80 ≤ score then "Excellent Match! Highly suitable candidate."
  else if 60 ≤ score then "Good Match! Suitable candidate with room for growth."
  else if 40 ≤ score then "Moderate Match. Some key skills may be missing."
  else "Low Match. Significant skill gaps present."

/-! ## Orchestrator (`match_cv_with_job`)

The PDF-text extraction and the two generative structured-extraction calls
are external I/O; they are modelled as oracle functions passed in as
parameters, returning `none` on failure.  Python's truthiness test
`if not cv_text or not job_text` treats both `None` and the empty string
as failure, captured by `textOk`.  The report/JSON writers are I/O whose
only contribution to the returned value is the output-path message; they
are modelled as the timestamp-derived file names the code builds. -/

/-- Python truthiness of an `Optional[str]`: `None` and `""` are falsy. -/
def textOk : Option String → Bool
  | none => false
  | some s => s ≠ ""

/-- File name built by `save_results_to_file` (the `OUTPUT_DIR` prefix and
wall-clock formatting of the timestamp are abstracted). -/
def reportFileName (now : ℕ) : String :=
  "match_result_" ++ toString now ++ ".pdf"

/-- File name built by `save_results_to_json`. -/
def jsonFileName (now : ℕ) : String :=
  "match_result_" ++ toString now ++ ".json"

/-- `match_cv_with_job`: extract both texts, abort on any falsy text;
structured-extract both records, abort if either is `None`; otherwise
score, build the full `MatchResult` and report the output paths. -/
def match_cv_with_job (extractText : String → Option String)
    (extractCv : String → Option CVData) (extractJob : String → Option JobData)
    (now : ℕ) (cv_file_path job_file_path : String) :
    Option MatchResult × Option String :=
  let cv_text := extractText cv_file_path
  let job_text := extractText job_file_path
  if textOk cv_text && textOk job_text then
    match extractCv (cv_text.getD ""), extractJob (job_text.getD "") with
    | some cv_data, some job_data =>
      let score_details := calculate_match_score cv_data job_data
      (some { cv_data := cv_data, job_data := job_data,
              score_details := score_details, timestamp := now,
              interpretation := get_interpretation score_details.total_score },
       some ("PDF: " ++ reportFileName now ++ ", JSON: " ++ jsonFileName now))
    | _, _ => (none, some "Failed to extract data from CV or Job Description")
  else (none, some "Failed to extract text from one or both PDF files")

/-! ## Upload validation (`/match-cv-job` endpoint, `app/main.py`)

The first step of the endpoint body: each uploaded file name is lowercased
and must end with `.pdf`, otherwise an `HTTPException(400, ...)` is raised
before any file is saved or processed.  `some (status, detail)` models the
raised exception, `none` means validation passed. -/

/-- The file-type validation of `match_cv_job`. -/
def validate_upload (cv_filename job_filename : String) : Option (ℕ × String) :=
  if pyEndsWith (pyLower cv_filename) ".pdf" = false then
    some (400, "CV file must be a PDF")
  else if pyEndsWith (pyLower job_filename) ".pdf" = false then
    some (400, "Job file must be a PDF")
  else none

/-! ## Concrete profiles used by the closed-form results -/

/-- End-to-end scenario candidate (§8 of the design document). -/
def cvScenario : CVData :=
  { name := "Jane"
    skills := ["Python", "SQL", "Communication"]
    education := ["Bachelor of Science in Computer Science"]
    experience := ["Software Engineer, 3 years"] }

/-- End-to-end scenario job (§8 of the design document). -/
def jobScenario : JobData :=
  { required_skills := ["python", "sql", "leadership"]
    qualifications := ["bachelor in computer science"]
    experience_needed := "2 years required" }

/-- A candidate whose single experience entry is the empty string. -/
def cvBlankExperience : CVData :=
  { name := "", skills := [], education := [], experience := [""] }

/-- A job with no requirements at all. -/
def jobPlain : JobData :=
  { required_skills := [], qualifications := [], experience_needed := "" }

/-- A candidate with one real experience entry and nothing else. -/
def cvOneExperience : CVData :=
  { name := "", skills := [], education := [], experience := ["a"] }

/-- A job asking for nineteen years of experience. -/
def jobNineteenYears : JobData :=
  { required_skills := [], qualifications := [], experience_needed := "19 years" }

/-- Spec-side definition (§4.1 education, rules 1 and 3 only): the
education sub-score before the pursuing/completed status-match step. -/
def eduScoreRules13 (cv : CVData) (job : JobData) : ℚ :=
  if 0 < (jobQualificationsN job).length then eduScoreBase cv job else 0

/-- A candidate whose education mentions a university but no degree-level
or subject keyword. -/
def cvUniversityOnly : CVData :=
  { name := "", skills := [], education := ["University of Colombo"], experience := [] }

/-- A job whose qualifications mention a pursuing status. -/
def jobPursuingStatus : JobData :=
  { required_skills := [], qualifications := ["pursuing"], experience_needed := "" }

/-- A candidate with a bachelor-level education. -/
def cvBachelorOnly : CVData :=
  { name := "", skills := [], education := ["bachelor"], experience := [] }

/-! ## Basic lemmas about the Python rounding model -/

theorem ratFloor_cast_le (q : ℚ) : (q.floor : ℚ) ≤ q :=
  Rat.le_floor.mp le_rfl

theorem ratFloor_le_of_le {q : ℚ} {B : ℤ} (h : q ≤ (B : ℚ)) : q.floor ≤ B := by
  by_contra hc
  push_neg at hc
  have h1 : ((B + 1 : ℤ) : ℚ) ≤ (q.floor : ℚ) := by exact_mod_cast hc
  have h2 := ratFloor_cast_le q
  push_cast at h1
  linarith

theorem le_ratFloor_of_le {q : ℚ} {B : ℤ} (h : (B : ℚ) ≤ q) : B ≤ q.floor :=
  Rat.le_floor.mpr h

theorem pyRoundInt_le {q : ℚ} {B : ℤ} (h : q ≤ (B : ℚ)) : pyRoundInt q ≤ B := by
  unfold pyRoundInt
  have hfl : (q.floor : ℚ) ≤ q := ratFloor_cast_le q
  have hfB : q.floor ≤ B := ratFloor_le_of_le h
  have hlt : q.floor = B → q - (q.floor : ℚ) < 1 / 2 := by
    intro he
    rw [he]
    linarith
  split_ifs with h1 h2 h3
  · exact hfB
  · rcases lt_or_eq_of_le hfB with hc | hc
    · omega
    · exact absurd (hlt hc) h1
  · exact hfB
  · rcases lt_or_eq_of_le hfB with hc | hc
    · omega
    · exact absurd (hlt hc) h1

theorem le_pyRoundInt {q : ℚ} {B : ℤ} (h : (B : ℚ) ≤ q) : B ≤ pyRoundInt q := by
  unfold pyRoundInt
  have hfB : B ≤ q.floor := le_ratFloor_of_le h
  split_ifs <;> omega

theorem pyRoundInt_intCast (n : ℤ) : pyRoundInt (n : ℚ) = n := by
  have hfl : ((n : ℚ)).floor = n :=
    le_antisymm (ratFloor_le_of_le le_rfl) (le_ratFloor_of_le le_rfl)
  unfold pyRoundInt
  rw [hfl]
  norm_num

theorem pyRound1_intCast (n : ℤ) : pyRound1 (n : ℚ) = (n : ℚ) := by
  unfold pyRound1
  have h : (10 : ℚ) * (n : ℚ) = ((10 * n : ℤ) : ℚ) := by push_cast; ring
  rw [h, pyRoundInt_intCast]
  push_cast
  ring

theorem pyRound1_nonneg {q : ℚ} (h : 0 ≤ q) : 0 ≤ pyRound1 q := by
  unfold pyRound1
  have h0 : (0 : ℤ) ≤ pyRoundInt (10 * q) := le_pyRoundInt (by push_cast; linarith)
  have : (0 : ℚ) ≤ (pyRoundInt (10 * q) : ℚ) := by exact_mod_cast h0
  linarith

theorem pyRound1_le_intCast {q : ℚ} {B : ℤ} (h : q ≤ (B : ℚ)) :
    pyRound1 q ≤ (B : ℚ) := by
  unfold pyRound1
  have h0 : pyRoundInt (10 * q) ≤ 10 * B := pyRoundInt_le (by push_cast; linarith)
  have : (pyRoundInt (10 * q) : ℚ) ≤ ((10 * B : ℤ) : ℚ) := by exact_mod_cast h0
  push_cast at this
  linarith

theorem ratFloor_eq {q : ℚ} {n : ℤ} (h1 : (n : ℚ) ≤ q) (h2 : q < (n : ℚ) + 1) :
    q.floor = n := by
  have ha := le_ratFloor_of_le h1
  have hc : (q.floor : ℚ) < ((n + 1 : ℤ) : ℚ) := by
    have := ratFloor_cast_le q
    push_cast
    linarith
  have hd : q.floor < n + 1 := by exact_mod_cast hc
  omega

/-- Evaluation of `pyRoundInt` strictly inside the half-open window around
an integer (no tie). -/
theorem pyRoundInt_window {q : ℚ} {n : ℤ}
    (h1 : (n : ℚ) - 1/2 < q) (h2 : q < (n : ℚ) + 1/2) : pyRoundInt q = n := by
  rcases le_or_lt (n : ℚ) q with hc | hc
  · have hf : q.floor = n := ratFloor_eq hc (by linarith)
    unfold pyRoundInt
    rw [hf, if_pos (by linarith : q - (n : ℚ) < 1/2)]
  · have hf : q.floor = n - 1 := ratFloor_eq (by push_cast; linarith) (by push_cast; linarith)
    unfold pyRoundInt
    rw [hf]
    have ha : ¬ (q - ((n - 1 : ℤ) : ℚ) < 1/2) := by push_cast; linarith
    have hb : 1/2 < q - ((n - 1 : ℤ) : ℚ) := by push_cast; linarith
    rw [if_neg ha, if_pos hb]
    omega

/-- Evaluation of `pyRoundInt` at an exact tie: toward the even neighbour. -/
theorem pyRoundInt_tie {q : ℚ} {n : ℤ} (h : q = (n : ℚ) + 1/2) :
    pyRoundInt q = if n % 2 = 0 then n else n + 1 := by
  have hf : q.floor = n := ratFloor_eq (by rw [h]; linarith) (by rw [h]; linarith)
  unfold pyRoundInt
  rw [hf, h]
  have hr : (n : ℚ) + 1/2 - (n : ℚ) = 1/2 := by ring
  rw [hr]
  norm_num

/-- Evaluation of `pyRound1` away from ties. -/
theorem pyRound1_window {q : ℚ} {n : ℤ}
    (h1 : (n : ℚ) - 1/2 < 10 * q) (h2 : 10 * q < (n : ℚ) + 1/2) :
    pyRound1 q = (n : ℚ) / 10 := by
  unfold pyRound1
  rw [pyRoundInt_window h1 h2]

/-! ## Range lemmas for the three raw sub-scores -/

theorem skillScoreVal_nonneg (cv : CVData) (job : JobData) :
    0 ≤ skillScoreVal cv job := by
  unfold skillScoreVal
  split_ifs with h
  · positivity
  · exact le_rfl

theorem skillScoreVal_le (cv : CVData) (job : JobData) :
    skillScoreVal cv job ≤ 70 := by
  unfold skillScoreVal
  split_ifs with h
  · have hle : skillMatchesVal cv job ≤ (requiredSkillsN job).length :=
      List.length_filter_le _ _
    have hpos : (0 : ℚ) < ((requiredSkillsN job).length : ℚ) := by
      exact_mod_cast h
    have h1 : ((skillMatchesVal cv job : ℚ) / ((requiredSkillsN job).length : ℚ)) ≤ 1 := by
      rw [div_le_one hpos]
      exact_mod_cast hle
    nlinarith
  · norm_num

theorem eduScoreBase_cases (cv : CVData) (job : JobData) :
    eduScoreBase cv job = 0 ∨ eduScoreBase cv job = 15 ∨ eduScoreBase cv job = 20 := by
  unfold eduScoreBase
  split_ifs <;> simp

theorem eduScoreVal_cases (cv : CVData) (job : JobData) :
    eduScoreVal cv job = 0 ∨ eduScoreVal cv job = 15 ∨
    eduScoreVal cv job = 18 ∨ eduScoreVal cv job = 20 := by
  unfold eduScoreVal
  split_ifs with h1 h2
  · rcases eduScoreBase_cases cv job with h | h | h <;> rw [h] <;> norm_num [max_def]
  · rcases eduScoreBase_cases cv job with h | h | h <;> rw [h] <;> norm_num
  · norm_num

theorem eduScoreVal_nonneg (cv : CVData) (job : JobData) :
    0 ≤ eduScoreVal cv job := by
  rcases eduScoreVal_cases cv job with h | h | h | h <;> rw [h] <;> norm_num

theorem eduScoreVal_le (cv : CVData) (job : JobData) :
    eduScoreVal cv job ≤ 20 := by
  rcases eduScoreVal_cases cv job with h | h | h | h <;> rw [h] <;> norm_num

theorem experienceScoreVal_nonneg (cv : CVData) (job : JobData) :
    0 ≤ experienceScoreVal cv job := by
  unfold experienceScoreVal
  split_ifs with h1 h2 h3
  · norm_num
  · have : (0 : ℚ) ≤ ((numExperiences cv : ℚ) / (requiredYears job : ℚ)) * 10 := by
      positivity
    exact le_min (by norm_num) this
  · norm_num
  · norm_num

theorem experienceScoreVal_le (cv : CVData) (job : JobData) :
    experienceScoreVal cv job ≤ 10 := by
  unfold experienceScoreVal
  split_ifs with h1 h2 h3
  · norm_num
  · exact min_le_left _ _
  · norm_num
  · norm_num

/-! ## Substring-test characterizations -/

theorem leadsWith_iff (n : List Char) : ∀ h : List Char,
    leadsWith n h = true ↔ ∃ t, h = n ++ t := by
  induction n with
  | nil =>
    intro h
    simp [leadsWith]
  | cons a as ih =>
    intro h
    cases h with
    | nil => simp [leadsWith]
    | cons b bs =>
      simp only [leadsWith, Bool.and_eq_true, beq_iff_eq, ih, List.cons_append,
        List.cons.injEq]
      constructor
      · rintro ⟨rfl, t, rfl⟩
        exact ⟨t, rfl, rfl⟩
      · rintro ⟨t, rfl, rfl⟩
        exact ⟨rfl, t, rfl⟩

theorem containsChars_iff (n : List Char) : ∀ h : List Char,
    containsChars n h = true ↔ ∃ p t, h = p ++ n ++ t := by
  intro h
  induction h with
  | nil =>
    simp only [containsChars, leadsWith_iff]
    constructor
    · rintro ⟨t, ht⟩
      exact ⟨[], t, ht⟩
    · rintro ⟨p, t, hpt⟩
      rcases List.append_eq_nil.mp hpt.symm with ⟨h1, h2⟩
      rcases List.append_eq_nil.mp h1 with ⟨rfl, rfl⟩
      exact ⟨[], by simp⟩
  | cons b bs ih =>
    simp only [containsChars, Bool.or_eq_true, leadsWith_iff, ih]
    constructor
    · rintro (⟨t, ht⟩ | ⟨p, t, ht⟩)
      · exact ⟨[], t, by simpa using ht⟩
      · exact ⟨b :: p, t, by simp [ht]⟩
    · rintro ⟨p, t, he⟩
      cases p with
      | nil =>
        left
        exact ⟨t, by simpa using he⟩
      | cons x xs =>
        right
        rw [List.cons_append, List.cons_append, List.cons.injEq] at he
        exact ⟨xs, t, by simp [he.2]⟩

/-- Python's `needle in hay` holds exactly when the needle occurs as a
contiguous run inside the haystack. -/
theorem pyIn_iff (needle hay : String) :
    pyIn needle hay = true ↔ ∃ p t, hay.toList = p ++ needle.toList ++ t :=
  containsChars_iff needle.toList hay.toList

/-- Python's `s.endswith(suffix)` holds exactly when the suffix is a final
segment of the string. -/
theorem pyEndsWith_iff (s suffix : String) :
    pyEndsWith s suffix = true ↔ ∃ p, s.toList = p ++ suffix.toList := by
  unfold pyEndsWith
  rw [leadsWith_iff]
  constructor
  · rintro ⟨t, ht⟩
    refine ⟨t.reverse, ?_⟩
    have h2 : s.toList.reverse.reverse = (suffix.toList.reverse ++ t).reverse :=
      congrArg List.reverse ht
    rw [List.reverse_reverse, List.reverse_append, List.reverse_reverse] at h2
    exact h2
  · rintro ⟨p, hp⟩
    exact ⟨p.reverse, by rw [hp, List.reverse_append]⟩

/-! ## Claim results -/

/-- C1 (counterexample): for the candidate whose only experience entry is
the empty string and a job with empty experience text, the entry count is
1 and the parsed required years are 0, so the claim's three-case rule
demands the full 10 points; the code instead takes the legacy
partial-credit branch and returns 5, both as the raw sub-score and as the
stored field.  The branch is therefore reachable. -/
theorem claim_C1_counterexample :
    numExperiences cvBlankExperience = 1 ∧
    requiredYears jobPlain = 0 ∧
    hasRelevantExp cvBlankExperience = false ∧
    experienceScoreVal cvBlankExperience jobPlain = 5 ∧
    (calculate_match_score cvBlankExperience jobPlain).experience_score = 5 := by
  refine ⟨by decide, by decide, by decide, by decide, ?_⟩
  show pyRound1 (experienceScoreVal cvBlankExperience jobPlain) = 5
  have h : experienceScoreVal cvBlankExperience jobPlain = 5 := by decide
  rw [h]
  exact_mod_cast pyRound1_intCast 5

/-- C1 (amended): the three-case rule holds whenever the joined candidate
experience text is non-empty after stripping; when the entry list is
non-empty but the joined text strips to empty, the partial-credit branch
fires and the sub-score is 5; zero entries still give 0. -/
theorem claim_C1_experience_rule (cv : CVData) (job : JobData) :
    (numExperiences cv = 0 → experienceScoreVal cv job = 0) ∧
    (0 < numExperiences cv → hasRelevantExp cv = true → requiredYears job ≤ 1 →
      experienceScoreVal cv job = 10) ∧
    (0 < numExperiences cv → hasRelevantExp cv = true → 1 < requiredYears job →
      experienceScoreVal cv job =
        min 10 (((numExperiences cv : ℚ) / (requiredYears job : ℚ)) * 10)) ∧
    (0 < numExperiences cv → hasRelevantExp cv = false →
      experienceScoreVal cv job = 5) := by
  unfold experienceScoreVal
  refine ⟨?_, ?_, ?_, ?_⟩ <;> intros <;> split_ifs <;>
    first
      | rfl
      | omega
      | (exfalso; simp_all)

/-- Witness for C1 (amended) at a concrete input: one real experience
entry against a five-year requirement scores `min 10 (1/5*10) = 2`. -/
theorem claim_C1_experience_rule_witness :
    experienceScoreVal ⟨"", [], [], ["dev"]⟩ ⟨[], [], "5 years"⟩ = 2 := by
  have h := (claim_C1_experience_rule ⟨"", [], [], ["dev"]⟩ ⟨[], [], "5 years"⟩).2.2.1
    (by decide) (by decide) (by decide)
  have h1 : numExperiences (⟨"", [], [], ["dev"]⟩ : CVData) = 1 := by decide
  have h2 : requiredYears (⟨[], [], "5 years"⟩ : JobData) = 5 := by decide
  rw [h, h1, h2]
  norm_num [min_def]

/-- C2 (counterexample): one experience entry against a nineteen-year
requirement gives the raw sub-scores (0, 0, 10/19); the code rounds their
sum to total 1, while rounding the sum of the stored one-decimal fields
(0, 0, 0.5) gives 0 — the stated invariant fails on the stored fields. -/
theorem claim_C2_counterexample :
    (calculate_match_score cvOneExperience jobNineteenYears).total_score = 1 ∧
    (calculate_match_score cvOneExperience jobNineteenYears).skill_score = 0 ∧
    (calculate_match_score cvOneExperience jobNineteenYears).education_score = 0 ∧
    (calculate_match_score cvOneExperience jobNineteenYears).experience_score = 1/2 ∧
    pyRoundInt
      ((calculate_match_score cvOneExperience jobNineteenYears).skill_score +
       (calculate_match_score cvOneExperience jobNineteenYears).education_score +
       (calculate_match_score cvOneExperience jobNineteenYears).experience_score) = 0 := by
  have hx : experienceScoreVal cvOneExperience jobNineteenYears = 10/19 := by
    unfold experienceScoreVal
    have h1 : 0 < numExperiences cvOneExperience ∧
        hasRelevantExp cvOneExperience = true := by decide
    have h2 : ¬ (requiredYears jobNineteenYears ≤ 1) := by decide
    have h3 : requiredYears jobNineteenYears = 19 := by decide
    have h4 : numExperiences cvOneExperience = 1 := by decide
    rw [if_pos h1, if_neg h2, h3, h4]
    norm_num [min_def]
  have hs : skillScoreVal cvOneExperience jobNineteenYears = 0 := by
    unfold skillScoreVal
    rw [if_neg (by decide)]
  have he : eduScoreVal cvOneExperience jobNineteenYears = 0 := by
    unfold eduScoreVal
    rw [if_neg (by decide)]
  have h0 : pyRound1 (0 : ℚ) = 0 := by exact_mod_cast pyRound1_intCast 0
  have hhalf : pyRound1 ((10 : ℚ)/19) = 1/2 := by
    have := pyRound1_window (q := 10/19) (n := 5) (by norm_num) (by norm_num)
    rw [this]
    norm_num
  refine ⟨?_, ?_, ?_, ?_, ?_⟩
  · show pyRoundInt (skillScoreVal cvOneExperience jobNineteenYears +
      eduScoreVal cvOneExperience jobNineteenYears +
      experienceScoreVal cvOneExperience jobNineteenYears) = 1
    rw [hs, he, hx]
    have hsum : (0 : ℚ) + 0 + 10/19 = 10/19 := by norm_num
    rw [hsum]
    exact pyRoundInt_window (by norm_num) (by norm_num)
  · show pyRound1 (skillScoreVal cvOneExperience jobNineteenYears) = 0
    rw [hs, h0]
  · show pyRound1 (eduScoreVal cvOneExperience jobNineteenYears) = 0
    rw [he, h0]
  · show pyRound1 (experienceScoreVal cvOneExperience jobNineteenYears) = 1/2
    rw [hx, hhalf]
  · show pyRoundInt (pyRound1 (skillScoreVal cvOneExperience jobNineteenYears) +
      pyRound1 (eduScoreVal cvOneExperience jobNineteenYears) +
      pyRound1 (experienceScoreVal cvOneExperience jobNineteenYears)) = 0
    rw [hs, he, hx, h0, hhalf]
    have hsum : (0 : ℚ) + 0 + 1/2 = ((0 : ℤ) : ℚ) + 1/2 := by norm_num
    rw [pyRoundInt_tie hsum]
    norm_num

/-- C2 (amended): every `ScoreDetails` record satisfies the stated field
bounds, the total lies in [0,100], and the total is the half-even
rounding of the sum of the raw (pre-rounding) sub-scores — not of the
stored one-decimal fields. -/
theorem claim_C2_invariants (cv : CVData) (job : JobData) :
    0 ≤ (calculate_match_score cv job).skill_score ∧
    (calculate_match_score cv job).skill_score ≤ 70 ∧
    0 ≤ (calculate_match_score cv job).education_score ∧
    (calculate_match_score cv job).education_score ≤ 20 ∧
    0 ≤ (calculate_match_score cv job).experience_score ∧
    (calculate_match_score cv job).experience_score ≤ 10 ∧
    0 ≤ (calculate_match_score cv job).total_score ∧
    (calculate_match_score cv job).total_score ≤ 100 ∧
    (calculate_match_score cv job).total_score =
      pyRoundInt (skillScoreVal cv job + eduScoreVal cv job +
        experienceScoreVal cv job) := by
  have hs0 := skillScoreVal_nonneg cv job
  have hs1 := skillScoreVal_le cv job
  have he0 := eduScoreVal_nonneg cv job
  have he1 := eduScoreVal_le cv job
  have hx0 := experienceScoreVal_nonneg cv job
  have hx1 := experienceScoreVal_le cv job
  refine ⟨pyRound1_nonneg hs0, ?_, pyRound1_nonneg he0, ?_,
    pyRound1_nonneg hx0, ?_, ?_, ?_, rfl⟩
  · have := pyRound1_le_intCast (B := 70) (by exact_mod_cast hs1)
    exact_mod_cast this
  · have := pyRound1_le_intCast (B := 20) (by exact_mod_cast he1)
    exact_mod_cast this
  · have := pyRound1_le_intCast (B := 10) (by exact_mod_cast hx1)
    exact_mod_cast this
  · exact le_pyRoundInt (by push_cast; linarith)
  · exact pyRoundInt_le (by push_cast; linarith)

/-- C4: the documented end-to-end scenario produces exactly the claimed
record (2/3 skills matched for 46.7, full education 20, experience 5,
total 72) and 72 is interpreted as the Good Match band. -/
theorem claim_C4_end_to_end :
    calculate_match_score cvScenario jobScenario =
      { total_score := 72
        skill_score := 467/10
        education_score := 20
        experience_score := 5
        skill_matches := 2
        total_required_skills := 3
        education_match_found := true
        experience_match_found := true } ∧
    get_interpretation (calculate_match_score cvScenario jobScenario).total_score =
      "Good Match! Suitable candidate with room for growth." := by
  have hsm : skillMatchesVal cvScenario jobScenario = 2 := by decide
  have hlen : (requiredSkillsN jobScenario).length = 3 := by decide
  have hs : skillScoreVal cvScenario jobScenario = 140/3 := by
    unfold skillScoreVal
    rw [hsm, hlen]
    norm_num
  have he : eduScoreVal cvScenario jobScenario = 20 := by
    unfold eduScoreVal eduScoreBase
    have h1 : 0 < (jobQualificationsN jobScenario).length := by decide
    have h2 : ((pyIn "pursuing" (jobQualText jobScenario) ||
        pyIn "completed" (jobQualText jobScenario)) &&
        (pyIn "bachelor" (cvEduText cvScenario) ||
        pyIn "university" (cvEduText cvScenario))) = false := by decide
    have h3 : hasRelevantEducation cvScenario = true := by decide
    have h4 : 0 < eduKeywordMatches cvScenario jobScenario := by decide
    rw [if_pos h1, h2, if_pos h3, if_pos h4]
    simp
  have hx : experienceScoreVal cvScenario jobScenario = 5 := by
    unfold experienceScoreVal
    have h1 : 0 < numExperiences cvScenario ∧ hasRelevantExp cvScenario = true := by
      decide
    have h2 : ¬ (requiredYears jobScenario ≤ 1) := by decide
    have h3 : requiredYears jobScenario = 2 := by decide
    have h4 : numExperiences cvScenario = 1 := by decide
    rw [if_pos h1, if_neg h2, h3, h4]
    norm_num [min_def]
  have htotal : pyRoundInt (skillScoreVal cvScenario jobScenario +
      eduScoreVal cvScenario jobScenario + experienceScoreVal cvScenario jobScenario) = 72 := by
    rw [hs, he, hx]
    have hsum : (140 : ℚ)/3 + 20 + 5 = 215/3 := by norm_num
    rw [hsum]
    exact pyRoundInt_window (by norm_num) (by norm_num)
  constructor
  · unfold calculate_match_score
    rw [ScoreDetails.mk.injEq]
    refine ⟨htotal, ?_, ?_, ?_, ?_, hlen, ?_, by decide⟩
    · rw [hs]
      have := pyRound1_window (q := 140/3) (n := 467) (by norm_num) (by norm_num)
      rw [this]
      norm_num
    · rw [he]
      exact_mod_cast pyRound1_intCast 20
    · rw [hx]
      exact_mod_cast pyRound1_intCast 5
    · rw [hlen, hsm, if_pos (by norm_num : (0:ℕ) < 3)]
    · rw [he]
      norm_num
  · show get_interpretation (pyRoundInt (skillScoreVal cvScenario jobScenario +
      eduScoreVal cvScenario jobScenario + experienceScoreVal cvScenario jobScenario)) =
      "Good Match! Suitable candidate with room for growth."
    rw [htotal]
    rfl

/-- C7: the interpretation mapper realizes the four closed-below bands,
checked highest-first. -/
theorem claim_C7_interpretation_bands (s : ℤ) :
    (80 ≤ s → get_interpretation s = "Excellent Match! Highly suitable candidate.") ∧
    (60 ≤ s → s ≤ 79 →
      get_interpretation s = "Good Match! Suitable candidate with room for growth.") ∧
    (40 ≤ s → s ≤ 59 →
      get_interpretation s = "Moderate Match. Some key skills may be missing.") ∧
    (s ≤ 39 → get_interpretation s = "Low Match. Significant skill gaps present.") := by
  unfold get_interpretation
  refine ⟨?_, ?_, ?_, ?_⟩ <;> intros <;> split_ifs <;> first | rfl | omega

/-- Witness for C7 at the claimed boundary scores. -/
theorem claim_C7_interpretation_bands_witness :
    get_interpretation 80 = "Excellent Match! Highly suitable candidate." ∧
    get_interpretation 79 = "Good Match! Suitable candidate with room for growth." ∧
    get_interpretation 60 = "Good Match! Suitable candidate with room for growth." ∧
    get_interpretation 59 = "Moderate Match. Some key skills may be missing." ∧
    get_interpretation 40 = "Moderate Match. Some key skills may be missing." ∧
    get_interpretation 39 = "Low Match. Significant skill gaps present." :=
  ⟨(claim_C7_interpretation_bands 80).1 (by norm_num),
   (claim_C7_interpretation_bands 79).2.1 (by norm_num) (by norm_num),
   (claim_C7_interpretation_bands 60).2.1 (by norm_num) (by norm_num),
   (claim_C7_interpretation_bands 59).2.2.1 (by norm_num) (by norm_num),
   (claim_C7_interpretation_bands 40).2.2.1 (by norm_num) (by norm_num),
   (claim_C7_interpretation_bands 39).2.2.2 (by norm_num)⟩

/-! ## Shared bridges between stored fields and raw sub-scores -/

theorem education_score_stored (cv : CVData) (job : JobData) :
    (calculate_match_score cv job).education_score = eduScoreVal cv job := by
  show pyRound1 (eduScoreVal cv job) = eduScoreVal cv job
  rcases eduScoreVal_cases cv job with h | h | h | h <;> rw [h] <;>
    exact_mod_cast pyRound1_intCast _

theorem hasRelevantEducation_iff (cv : CVData) :
    hasRelevantEducation cv = true ↔
      ∃ k ∈ degree_keywords, ∃ p t, (cvEduText cv).toList = p ++ k.toList ++ t := by
  unfold hasRelevantEducation
  simp only [List.any_eq_true, pyIn_iff]

theorem eduKeywordMatches_pos_iff (cv : CVData) (job : JobData) :
    0 < eduKeywordMatches cv job ↔
      ∃ k ∈ degree_keywords,
        (∃ p t, (cvEduText cv).toList = p ++ k.toList ++ t) ∧
        (∃ p t, (jobQualText job).toList = p ++ k.toList ++ t) := by
  unfold eduKeywordMatches
  rw [← List.countP_eq_length_filter, List.countP_pos_iff]
  simp only [Bool.and_eq_true, pyIn_iff]

theorem jobQualText_of_no_qualifications {job : JobData}
    (h : (jobQualificationsN job).length = 0) : jobQualText job = "" := by
  have hnil : jobQualificationsN job = [] := List.length_eq_zero.mp h
  unfold jobQualText
  rw [hnil]
  decide

/-- C3: with required skills present, the skill sub-score is the matched
fraction scaled to 70, where the count ranges over the job's original
required-skill list and a required skill is matched exactly when, after
trim-and-lowercase normalization, it contains or is contained in some
candidate skill; with no required skills the stored score and both counts
are zero. -/
theorem claim_C3_skill_score (cv : CVData) (job : JobData) :
    (0 < job.required_skills.length →
      skillScoreVal cv job =
        ((skillMatchesVal cv job : ℚ) / (job.required_skills.length : ℚ)) * 70) ∧
    skillMatchesVal cv job =
      (job.required_skills.countP fun r =>
        (cvSkillsN cv).any fun c =>
          pyIn (pyStrip (pyLower r)) c || pyIn c (pyStrip (pyLower r))) ∧
    (∀ r : String,
      ((cvSkillsN cv).any fun c =>
        pyIn (pyStrip (pyLower r)) c || pyIn c (pyStrip (pyLower r))) = true ↔
      ∃ c ∈ cv.skills,
        (∃ p t, (pyStrip (pyLower c)).toList =
          p ++ (pyStrip (pyLower r)).toList ++ t) ∨
        (∃ p t, (pyStrip (pyLower r)).toList =
          p ++ (pyStrip (pyLower c)).toList ++ t)) ∧
    (job.required_skills = [] →
      (calculate_match_score cv job).skill_score = 0 ∧
      (calculate_match_score cv job).skill_matches = 0 ∧
      (calculate_match_score cv job).total_required_skills = 0) := by
  have hlen : (requiredSkillsN job).length = job.required_skills.length := by
    unfold requiredSkillsN normList
    exact List.length_map _ _
  refine ⟨?_, ?_, ?_, ?_⟩
  · intro h
    unfold skillScoreVal
    rw [if_pos (by omega : 0 < (requiredSkillsN job).length), hlen]
  · unfold skillMatchesVal requiredSkillsN normList
    rw [← List.countP_eq_length_filter, List.countP_map]
    rfl
  · intro r
    simp only [List.any_eq_true, Bool.or_eq_true, pyIn_iff, cvSkillsN, normList,
      List.mem_map]
    constructor
    · rintro ⟨c', ⟨c, hc, rfl⟩, hor⟩
      exact ⟨c, hc, hor⟩
    · rintro ⟨c, hc, hor⟩
      exact ⟨pyStrip (pyLower c), ⟨c, hc, rfl⟩, hor⟩
  · intro h
    have hn : requiredSkillsN job = [] := by
      unfold requiredSkillsN normList
      rw [h]
      rfl
    refine ⟨?_, ?_, ?_⟩
    · show pyRound1 (skillScoreVal cv job) = 0
      unfold skillScoreVal
      rw [hn]
      rw [if_neg (by simp)]
      exact_mod_cast pyRound1_intCast 0
    · show (if 0 < (requiredSkillsN job).length then skillMatchesVal cv job else 0) = 0
      rw [hn]
      simp
    · show (requiredSkillsN job).length = 0
      rw [hn]
      rfl

/-- Witness for C3: required skill java against candidate skill
javascript is matched by containment, giving the full 70. -/
theorem claim_C3_skill_score_witness :
    skillScoreVal ⟨"", ["javascript"], [], []⟩ ⟨["java"], [], ""⟩ = 70 := by
  have h := (claim_C3_skill_score ⟨"", ["javascript"], [], []⟩ ⟨["java"], [], ""⟩).1
    (by decide)
  rw [h]
  have h1 : skillMatchesVal ⟨"", ["javascript"], [], []⟩ ⟨["java"], [], ""⟩ = 1 := by
    decide
  have h2 : ((⟨["java"], [], ""⟩ : JobData).required_skills).length = 1 := by decide
  rw [h1, h2]
  norm_num

/-- C5: with qualifications listed, a degree/subject keyword in the
candidate education blob guarantees at least 15 education points, and a
keyword present in both blobs guarantees exactly 20; with no
qualifications the education score is 0. -/
theorem claim_C5_education (cv : CVData) (job : JobData) :
    (0 < job.qualifications.length →
      ((∃ k ∈ degree_keywords, ∃ p t, (cvEduText cv).toList = p ++ k.toList ++ t) →
        15 ≤ (calculate_match_score cv job).education_score) ∧
      ((∃ k ∈ degree_keywords,
          (∃ p t, (cvEduText cv).toList = p ++ k.toList ++ t) ∧
          (∃ p t, (jobQualText job).toList = p ++ k.toList ++ t)) →
        (calculate_match_score cv job).education_score = 20)) ∧
    (job.qualifications = [] →
      (calculate_match_score cv job).education_score = 0) := by
  have hq : (jobQualificationsN job).length = job.qualifications.length := by
    unfold jobQualificationsN normList
    exact List.length_map _ _
  constructor
  · intro h
    have hg : 0 < (jobQualificationsN job).length := by omega
    constructor
    · intro hrel
      rw [education_score_stored]
      have hb : hasRelevantEducation cv = true := (hasRelevantEducation_iff cv).mpr hrel
      have hbase : 15 ≤ eduScoreBase cv job := by
        unfold eduScoreBase
        rw [if_pos hb]
        split_ifs <;> norm_num
      unfold eduScoreVal
      rw [if_pos hg]
      split_ifs with hstat
      · calc (15 : ℚ) ≤ eduScoreBase cv job := hbase
          _ ≤ max (eduScoreBase cv job) 18 := le_max_left _ _
      · exact hbase
    · intro hboth
      rw [education_score_stored]
      have hb : hasRelevantEducation cv = true := by
        apply (hasRelevantEducation_iff cv).mpr
        obtain ⟨k, hk, h1, _⟩ := hboth
        exact ⟨k, hk, h1⟩
      have hm : 0 < eduKeywordMatches cv job :=
        (eduKeywordMatches_pos_iff cv job).mpr hboth
      have hbase : eduScoreBase cv job = 20 := by
        unfold eduScoreBase
        rw [if_pos hb, if_pos hm]
      unfold eduScoreVal
      rw [if_pos hg, hbase]
      split_ifs
      · norm_num [max_def]
      · rfl
  · intro h
    rw [education_score_stored]
    unfold eduScoreVal
    have h0 : (jobQualificationsN job).length = 0 := by rw [hq, h]; rfl
    rw [if_neg (by omega)]

/-- Witness for C5: the keyword bachelor in both blobs yields 20. -/
theorem claim_C5_education_witness :
    (calculate_match_score ⟨"", [], ["bachelor"], []⟩
      ⟨[], ["bachelor"], ""⟩).education_score = 20 :=
  ((claim_C5_education ⟨"", [], ["bachelor"], []⟩ ⟨[], ["bachelor"], ""⟩).1
    (by decide)).2
    ⟨"bachelor", by decide, ⟨[], [], by decide⟩, ⟨[], [], by decide⟩⟩

/-- C6: when the job blob mentions pursuing/completed and the candidate
blob mentions bachelor/university, the education sub-score is exactly the
max of the rules-1-and-3 score with 18 (hence at least 18); and the
status rule never lowers the score below what rules 1 and 3 alone give. -/
theorem claim_C6_status_rule (cv : CVData) (job : JobData) :
    ((pyIn "pursuing" (jobQualText job) || pyIn "completed" (jobQualText job)) = true →
     (pyIn "bachelor" (cvEduText cv) || pyIn "university" (cvEduText cv)) = true →
      18 ≤ eduScoreVal cv job ∧
      eduScoreVal cv job = max (eduScoreRules13 cv job) 18) ∧
    eduScoreRules13 cv job ≤ eduScoreVal cv job := by
  constructor
  · intro h1 h2
    have hg : 0 < (jobQualificationsN job).length := by
      by_contra hc
      push_neg at hc
      have h0 : (jobQualificationsN job).length = 0 := by omega
      rw [jobQualText_of_no_qualifications h0] at h1
      exact absurd h1 (by decide)
    unfold eduScoreVal eduScoreRules13
    rw [if_pos hg, if_pos hg, h1, h2]
    simp only [Bool.and_self, if_true]
    simp only [and_true, true_and, eq_self_iff_true]
    first
      | exact ⟨le_max_right _ _, trivial⟩
      | exact le_max_right _ _
  · unfold eduScoreVal eduScoreRules13
    split_ifs with hg hstat
    · exact le_max_left _ _
    · exact le_rfl
    · exact le_rfl

/-- Witness for C6: pursuing in the job blob and bachelor in the
candidate blob give at least 18. -/
theorem claim_C6_status_rule_witness :
    18 ≤ eduScoreVal cvBachelorOnly ⟨[], ["pursuing degree"], ""⟩ :=
  ((claim_C6_status_rule cvBachelorOnly ⟨[], ["pursuing degree"], ""⟩).1
    (by decide) (by decide)).1

/-- C9: the stored education flag is exactly "education score positive";
it is true when only the pursuing/completed rule fired (candidate has no
degree keyword), and false when the candidate has relevant education but
the job lists no qualifications. -/
theorem claim_C9_education_flag (cv : CVData) (job : JobData) :
    ((calculate_match_score cv job).education_match_found = true ↔
      0 < (calculate_match_score cv job).education_score) ∧
    ((calculate_match_score cvUniversityOnly jobPursuingStatus).education_match_found
        = true ∧
      hasRelevantEducation cvUniversityOnly = false) ∧
    ((calculate_match_score cvBachelorOnly jobPlain).education_match_found = false ∧
      hasRelevantEducation cvBachelorOnly = true) := by
  refine ⟨?_, ⟨by decide, by decide⟩, ⟨by decide, by decide⟩⟩
  rw [education_score_stored]
  exact decide_eq_true_iff

/-- Witness for C9 at a concrete input with a positive education score. -/
theorem claim_C9_education_flag_witness :
    (calculate_match_score cvBachelorOnly
      ⟨[], ["bachelor"], ""⟩).education_match_found = true := by
  have h : 0 < (calculate_match_score cvBachelorOnly
      ⟨[], ["bachelor"], ""⟩).education_score := by
    rw [education_score_stored]
    decide
  exact (claim_C9_education_flag cvBachelorOnly ⟨[], ["bachelor"], ""⟩).1.mpr h

/-- C8: the orchestrator is all-or-nothing with first-failure-wins
semantics: the result carries no `MatchResult` exactly when some stage
fails (missing or empty extracted text, or a failed structured
extraction), a failure yields one of the two descriptive error messages,
and full success yields the complete `MatchResult` built from the scored
records. -/
theorem claim_C8_all_or_nothing (et : String → Option String)
    (ec : String → Option CVData) (ej : String → Option JobData)
    (now : ℕ) (cv_path job_path : String) :
    ((match_cv_with_job et ec ej now cv_path job_path).1 = none ↔
      ¬ (textOk (et cv_path) = true ∧ textOk (et job_path) = true ∧
         (ec ((et cv_path).getD "")).isSome = true ∧
         (ej ((et job_path).getD "")).isSome = true)) ∧
    ((match_cv_with_job et ec ej now cv_path job_path).1 = none →
      (match_cv_with_job et ec ej now cv_path job_path).2 =
          some "Failed to extract text from one or both PDF files" ∨
      (match_cv_with_job et ec ej now cv_path job_path).2 =
          some "Failed to extract data from CV or Job Description") ∧
    (∀ ct jt cvd jobd, et cv_path = some ct → ct ≠ "" →
      et job_path = some jt → jt ≠ "" →
      ec ct = some cvd → ej jt = some jobd →
      match_cv_with_job et ec ej now cv_path job_path =
        (some { cv_data := cvd, job_data := jobd,
                score_details := calculate_match_score cvd jobd,
                timestamp := now,
                interpretation := get_interpretation
                  (calculate_match_score cvd jobd).total_score },
         some ("PDF: " ++ reportFileName now ++ ", JSON: " ++ jsonFileName now))) := by
  refine ⟨?_, ?_, ?_⟩
  · by_cases hb : (textOk (et cv_path) && textOk (et job_path)) = true
    · have hb1 : textOk (et cv_path) = true ∧ textOk (et job_path) = true := by
        simpa using hb
      rcases hc : ec ((et cv_path).getD "") with _ | cvd <;>
        rcases hj : ej ((et job_path).getD "") with _ | jobd <;>
        simp [match_cv_with_job, hb, hc, hj, hb1.1, hb1.2]
    · have hb1 : ¬ (textOk (et cv_path) = true ∧ textOk (et job_path) = true) := by
        intro hcon
        exact hb (by simp [hcon.1, hcon.2])
      simp only [match_cv_with_job, if_neg hb]
      constructor
      · intro _ hall
        exact hb1 ⟨hall.1, hall.2.1⟩
      · intro _
        trivial
  · intro hnone
    by_cases hb : (textOk (et cv_path) && textOk (et job_path)) = true
    · rcases hc : ec ((et cv_path).getD "") with _ | cvd <;>
        rcases hj : ej ((et job_path).getD "") with _ | jobd <;>
        simp [match_cv_with_job, hb, hc, hj] at hnone ⊢
    · simp [match_cv_with_job, hb]
  · intro ct jt cvd jobd h1 h2 h3 h4 h5 h6
    unfold match_cv_with_job
    rw [h1, h3]
    have hb : (textOk (some ct) && textOk (some jt)) = true := by
      simp [textOk, h2, h4]
    rw [if_pos hb]
    simp only [Option.getD_some]
    rw [h5, h6]

/-- Witness for C8 with concrete always-succeeding oracles. -/
theorem claim_C8_all_or_nothing_witness :
    match_cv_with_job (fun _ => some "text") (fun _ => some cvScenario)
      (fun _ => some jobScenario) 7 "cv.pdf" "job.pdf" =
      (some { cv_data := cvScenario, job_data := jobScenario,
              score_details := calculate_match_score cvScenario jobScenario,
              timestamp := 7,
              interpretation := get_interpretation
                (calculate_match_score cvScenario jobScenario).total_score },
       some ("PDF: " ++ reportFileName 7 ++ ", JSON: " ++ jsonFileName 7)) :=
  (claim_C8_all_or_nothing (fun _ => some "text") (fun _ => some cvScenario)
    (fun _ => some jobScenario) 7 "cv.pdf" "job.pdf").2.2
    "text" "text" cvScenario jobScenario rfl (by decide) rfl (by decide) rfl rfl

/-- C10: the endpoint rejects an upload, with status 400, exactly when a
lowercased filename does not end in .pdf; mixed-case pdf extensions pass. -/
theorem claim_C10_upload_validation (cv_filename job_filename : String) :
    (validate_upload cv_filename job_filename = none ↔
      (∃ p, (pyLower cv_filename).toList = p ++ ".pdf".toList) ∧
      (∃ p, (pyLower job_filename).toList = p ++ ".pdf".toList)) ∧
    (∀ e, validate_upload cv_filename job_filename = some e → e.1 = 400) := by
  constructor
  · rw [← pyEndsWith_iff, ← pyEndsWith_iff]
    unfold validate_upload
    split_ifs with h1 h2
    · simp [h1]
    · rw [Bool.not_eq_false] at h1
      simp [h1, h2]
    · rw [Bool.not_eq_false] at h1 h2
      simp [h1, h2]
  · intro e he
    unfold validate_upload at he
    split_ifs at he
    · have h := Option.some.inj he
      rw [← h]
    · have h := Option.some.inj he
      rw [← h]

/-- Witness for C10: mixed-case .pdf names are accepted. -/
theorem claim_C10_upload_validation_witness :
    validate_upload "resume.PDF" "resume.Pdf" = none :=
  (claim_C10_upload_validation "resume.PDF" "resume.Pdf").1.mpr
    ⟨⟨"resume".toList, by decide⟩, ⟨"resume".toList, by decide⟩⟩

end CVMatcher
